import Mathlib

/-!
Verification of the axis-icon generator script (`gen_axes_icon.py`).

The script renders 3D coordinate-axis icons with matplotlib: three colored
axis arrows with per-axis opacity, axis labels, an origin marker, optional
guide lines to a target point with auto-derived dashed auxiliary segments,
an optional shaded parallelogram with dashed edges (edges coincident with an
axis may be suppressed), a batch driver writing each variant as a PNG/SVG
pair, and a composer tiling the rendered rasters into a 4x4 reference grid.

The geometric and batch logic is shallowly embedded below: Python floats
become rationals, tuples become products, the matplotlib drawing calls
become records of the data those calls receive, and the filesystem
interactions become explicit parameters (an abstract image loader for the
grid composer, a write-failure flag for the renderer).
-/

namespace AxesIcon

/-- A 3D point, as the rational shadow of the Python float triples. -/
abbrev Vec3 := ℚ × ℚ × ℚ

/-- The float tolerance `1e-9` used by the guide-line classification. -/
def eps : ℚ := 1/1000000000

/-- `abs(v - 1.0) < 1e-9`: the script's test for a coordinate being 1. -/
def isOne (v : ℚ) : Bool := |v - 1| < eps

/-- `abs(v - 0.0) < 1e-9`: the script's test for a coordinate being 0. -/
def isZero (v : ℚ) : Bool := |v - 0| < eps

/-- `ones_axes = [i for i, v in enumerate(target) if abs(v - 1.0) < 1e-9]`,
specialised to the 3-coordinate target the script always builds. -/
def onesAxes (t : Vec3) : List ℕ :=
  (if isOne t.1 then [0] else []) ++
  (if isOne t.2.1 then [1] else []) ++
  (if isOne t.2.2 then [2] else [])

/-- `zeros_axes = [i for i, v in enumerate(target) if abs(v - 0.0) < 1e-9]`. -/
def zerosAxes (t : Vec3) : List ℕ :=
  (if isZero t.1 then [0] else []) ++
  (if isZero t.2.1 then [1] else []) ++
  (if isZero t.2.2 then [2] else [])

/-- The unit point the script builds for axis index `ax_idx`
(`(1,0,0)` / `(0,1,0)` / `(0,0,1)`). -/
def unitPoint (i : ℕ) : Vec3 :=
  if i = 0 then (1, 0, 0) else if i = 1 then (0, 1, 0) else (0, 0, 1)

/-- The auto-derived auxiliary dashed segments for a guide target: one
segment from the unit point of each axis whose coordinate is 1 to the
target, produced only when exactly two coordinates are 1 and exactly one
is 0 (`len(ones_axes) == 2 and len(zeros_axes) == 1`). -/
def autoAuxSegments (t : Vec3) : List (Vec3 × Vec3) :=
  if (onesAxes t).length = 2 ∧ (zerosAxes t).length = 1 then
    (onesAxes t).map (fun i => (unitPoint i, t))
  else []

lemma onesAxes_110 : onesAxes (1, 1, 0) = [0, 1] := by
  norm_num [onesAxes, isOne, eps, abs_lt]

lemma zerosAxes_110 : zerosAxes (1, 1, 0) = [2] := by
  norm_num [zerosAxes, isZero, eps, abs_lt]

lemma onesAxes_half : onesAxes (1, 1, 1/2) = [0, 1] := by
  norm_num [onesAxes, isOne, eps, abs_lt]

lemma zerosAxes_half : zerosAxes (1, 1, 1/2) = [] := by
  norm_num [zerosAxes, isZero, eps, abs_lt]

/-- C1 counterexample: the target `(1, 1, 1/2)` has exactly two coordinates
equal to 1, yet the script derives zero auxiliary segments for it, because
its condition additionally requires the remaining coordinate to equal 0. -/
theorem C1_counterexample :
    (onesAxes (1, 1, 1/2)).length = 2 ∧ autoAuxSegments (1, 1, 1/2) = [] := by
  constructor
  · rw [onesAxes_half]
    rfl
  · simp only [autoAuxSegments, onesAxes_half, zerosAxes_half]
    rfl

/-- C1 (amended): when exactly two coordinates of the guide target equal 1
and the remaining coordinate equals 0, exactly two auxiliary segments are
produced, each from the unit point of an axis whose coordinate is 1 to the
target; for every other target no auxiliary segment is auto-derived. -/
theorem C1_auto_aux_segments (t : Vec3) :
    ((onesAxes t).length = 2 ∧ (zerosAxes t).length = 1 →
      (autoAuxSegments t).length = 2 ∧
      ∀ s ∈ autoAuxSegments t, (∃ i ∈ onesAxes t, s.1 = unitPoint i) ∧ s.2 = t) ∧
    (¬ ((onesAxes t).length = 2 ∧ (zerosAxes t).length = 1) →
      autoAuxSegments t = []) := by
  constructor
  · intro h
    constructor
    · simp [autoAuxSegments, h.1, h.2]
    · intro s hs
      simp only [autoAuxSegments, if_pos (And.intro h.1 h.2), List.mem_map] at hs
      obtain ⟨i, hi, rfl⟩ := hs
      exact ⟨⟨i, hi, rfl⟩, rfl⟩
  · intro h
    simp [autoAuxSegments, h]

/-- C1 witness: at the target `(1,1,0)` the hypothesis holds and two
auxiliary segments are produced. -/
theorem C1_witness : (autoAuxSegments (1, 1, 0)).length = 2 :=
  ((C1_auto_aux_segments (1, 1, 0)).1
    (by simp [onesAxes_110, zerosAxes_110])).1

/-- The origin `O = (0.0, 0.0, 0.0)` of the parallelogram quadrilateral. -/
def originPoint : Vec3 := (0, 0, 0)

/-- `is_unit_axis(pt)`: membership of the point in
`{(1,0,0), (0,1,0), (0,0,1)}` by exact comparison. -/
def is_unit_axis (pt : Vec3) : Bool :=
  pt == (1, 0, 0) || pt == (0, 1, 0) || pt == (0, 0, 1)

/-- Componentwise vector sum, the spec's `v1 + v2`. -/
def vadd (a b : Vec3) : Vec3 := (a.1 + b.1, a.2.1 + b.2.1, a.2.2 + b.2.2)

/-- The quadrilateral vertex list `[O, A, B, D]` the script passes to
`Poly3DCollection`, with `A = v1`, `D = v2`, `B = A + D` componentwise. -/
def parallelogramVerts (v1 v2 : Vec3) : List Vec3 :=
  [originPoint, v1, (v1.1 + v2.1, v1.2.1 + v2.2.1, v1.2.2 + v2.2.2), v2]

/-- The four boundary edges `[(O,A), (A,B), (B,D), (D,O)]` the script
considers for dashed stroking. -/
def parallelogramEdges (v1 v2 : Vec3) : List (Vec3 × Vec3) :=
  [(originPoint, v1),
   (v1, (v1.1 + v2.1, v1.2.1 + v2.2.1, v1.2.2 + v2.2.2)),
   ((v1.1 + v2.1, v1.2.1 + v2.2.1, v1.2.2 + v2.2.2), v2),
   (v2, originPoint)]

/-- The script's per-edge skip test: with the suppression flag on, an edge
is skipped when one endpoint is `O` and the other is a unit axis point. -/
def edgeSkipped (skip_axis_edges : Bool) (e : Vec3 × Vec3) : Bool :=
  skip_axis_edges &&
    ((e.1 == originPoint && is_unit_axis e.2) ||
     (e.2 == originPoint && is_unit_axis e.1))

/-- The edges the script actually strokes with the dashed style: the
boundary edges that are not skipped. -/
def strokedEdges (v1 v2 : Vec3) (skip_axis_edges : Bool) : List (Vec3 × Vec3) :=
  (parallelogramEdges v1 v2).filter (fun e => !(edgeSkipped skip_axis_edges e))

/-- C7: for every parallelogram spec, the rendered quadrilateral has
vertices origin, `v1`, `v1 + v2`, `v2`, in that cyclic order. -/
theorem C7_parallelogram_vertices (v1 v2 : Vec3) :
    parallelogramVerts v1 v2 = [(0, 0, 0), v1, vadd v1 v2, v2] := rfl

lemma parallelogramEdges_xz :
    parallelogramEdges (1, 0, 0) (0, 0, 1) =
      [((0, 0, 0), (1, 0, 0)), ((1, 0, 0), (1, 0, 1)),
       ((1, 0, 1), (0, 0, 1)), ((0, 0, 1), (0, 0, 0))] := by
  norm_num [parallelogramEdges, originPoint]

lemma strokedEdges_xz :
    strokedEdges (1, 0, 0) (0, 0, 1) true =
      [((1, 0, 0), (1, 0, 1)), ((1, 0, 1), (0, 0, 1))] := by
  simp only [strokedEdges, parallelogramEdges_xz]
  decide

lemma mem_parallelogramEdges_xz :
    (((0, 0, 0), (1, 0, 0)) : Vec3 × Vec3) ∈ parallelogramEdges (1, 0, 0) (0, 0, 1) := by
  rw [parallelogramEdges_xz]
  decide

/-- C2: with the suppression flag enabled, an edge of the quadrilateral is
left unstroked exactly when one endpoint is the origin and the other is a
unit axis point; in particular for `v1 = (1,0,0)`, `v2 = (0,0,1)` only the
two non-axis edges are stroked. -/
theorem C2_edge_suppression :
    (∀ (v1 v2 : Vec3) (e : Vec3 × Vec3), e ∈ parallelogramEdges v1 v2 →
      (e ∉ strokedEdges v1 v2 true ↔
        (e.1 = originPoint ∧ is_unit_axis e.2 = true) ∨
        (e.2 = originPoint ∧ is_unit_axis e.1 = true))) ∧
    strokedEdges (1, 0, 0) (0, 0, 1) true =
      [((1, 0, 0), (1, 0, 1)), ((1, 0, 1), (0, 0, 1))] := by
  refine ⟨fun v1 v2 e he => ?_, strokedEdges_xz⟩
  have h1 : e ∉ strokedEdges v1 v2 true ↔ edgeSkipped true e = true := by
    simp [strokedEdges, List.mem_filter, he]
  rw [h1]
  simp [edgeSkipped, Bool.and_eq_true, Bool.or_eq_true, beq_iff_eq]

/-- C2 witness: in the `v1 = (1,0,0)`, `v2 = (0,0,1)` parallelogram, the
edge from the origin to `(1,0,0)` is a boundary edge and is not stroked. -/
theorem C2_witness :
    (((0, 0, 0), (1, 0, 0)) : Vec3 × Vec3) ∉ strokedEdges (1, 0, 0) (0, 0, 1) true :=
  (C2_edge_suppression.1 (1, 0, 0) (0, 0, 1) ((0, 0, 0), (1, 0, 0))
      mem_parallelogramEdges_xz).mpr
    (Or.inl ⟨rfl, by decide⟩)

/-- ASCII lowercase of one character, modelling Python's `str.lower` on the
ASCII selector strings the script compares against. -/
def lowerChar (c : Char) : Char :=
  if c.isUpper then Char.ofNat (c.toNat + 32) else c

/-- `s.lower()` for the ASCII strings involved. -/
def strLower (s : String) : String := ⟨s.toList.map lowerChar⟩

/-- The per-axis opacity triple `(alpha_x, alpha_y, alpha_z)` computed from
the `normal_axis` selector and `dim_alpha`: `None` gives full opacity to
all three; a lowercase form in `('all_dim', 'dim_all', 'none')` dims all
three; otherwise the axis whose letter matches the lowercase selector gets
1.0 and the others get `dim_alpha`. -/
def axisAlphas (normal_axis : Option String) (dim_alpha : ℚ) : ℚ × ℚ × ℚ :=
  match normal_axis with
  | none => (1, 1, 1)
  | some s =>
    if strLower s = "all_dim" ∨ strLower s = "dim_all" ∨ strLower s = "none" then
      (dim_alpha, dim_alpha, dim_alpha)
    else
      (if strLower s = "x" then 1 else dim_alpha,
       if strLower s = "y" then 1 else dim_alpha,
       if strLower s = "z" then 1 else dim_alpha)

/-- One axis arrow as the script draws it (an `Arrow3D` from the origin to
`axis_length` along the axis, with the axis color and its alpha). -/
structure Arrow where
  tail : Vec3
  tip : Vec3
  color : String
  alpha : ℚ

/-- One axis label as the script draws it (`ax.text` just beyond the arrow
tip, with the axis color and the same alpha as the arrow). -/
structure Label where
  pos : Vec3
  text : String
  color : String
  alpha : ℚ

/-- `axis_length = 1.15`. -/
def axis_length : ℚ := 115/100

/-- `label_offset = 1.08`. -/
def label_offset : ℚ := 108/100

/-- The three axis arrows, colored AutoCAD-style red/green/blue with the
per-axis alphas. -/
def arrows (normal_axis : Option String) (dim_alpha : ℚ) : List Arrow :=
  [⟨(0, 0, 0), (axis_length, 0, 0), "#FF0000", (axisAlphas normal_axis dim_alpha).1⟩,
   ⟨(0, 0, 0), (0, axis_length, 0), "#00FF00", (axisAlphas normal_axis dim_alpha).2.1⟩,
   ⟨(0, 0, 0), (0, 0, axis_length), "#0000FF", (axisAlphas normal_axis dim_alpha).2.2⟩]

/-- The three axis labels, at `axis_length * label_offset` along each axis,
reusing the per-axis alphas. -/
def labels (normal_axis : Option String) (dim_alpha : ℚ) : List Label :=
  [⟨(axis_length * label_offset, 0, 0), "X", "#FF0000", (axisAlphas normal_axis dim_alpha).1⟩,
   ⟨(0, axis_length * label_offset, 0), "Y", "#00FF00", (axisAlphas normal_axis dim_alpha).2.1⟩,
   ⟨(0, 0, axis_length * label_offset), "Z", "#0000FF", (axisAlphas normal_axis dim_alpha).2.2⟩]

/-- C3: each documented emphasis selector gives full opacity to exactly the
expected axes, for both the arrows and the labels: `x`/`y`/`z` emphasise
that one axis, `all_dim` and `none` dim all three, and no selector (the
`None` default) leaves all three fully opaque. -/
theorem C3_emphasis_alphas (d : ℚ) :
    ((arrows (some "x") d).map Arrow.alpha = [1, d, d] ∧
      (labels (some "x") d).map Label.alpha = [1, d, d]) ∧
    ((arrows (some "y") d).map Arrow.alpha = [d, 1, d] ∧
      (labels (some "y") d).map Label.alpha = [d, 1, d]) ∧
    ((arrows (some "z") d).map Arrow.alpha = [d, d, 1] ∧
      (labels (some "z") d).map Label.alpha = [d, d, 1]) ∧
    ((arrows (some "all_dim") d).map Arrow.alpha = [d, d, d] ∧
      (labels (some "all_dim") d).map Label.alpha = [d, d, d]) ∧
    ((arrows (some "none") d).map Arrow.alpha = [d, d, d] ∧
      (labels (some "none") d).map Label.alpha = [d, d, d]) ∧
    ((arrows none d).map Arrow.alpha = [1, 1, 1] ∧
      (labels none d).map Label.alpha = [1, 1, 1]) :=
  ⟨⟨rfl, rfl⟩, ⟨rfl, rfl⟩, ⟨rfl, rfl⟩, ⟨rfl, rfl⟩, ⟨rfl, rfl⟩, ⟨rfl, rfl⟩⟩

/-- How many of the three axes received opacity exactly 1. -/
def fullCount (t : ℚ × ℚ × ℚ) : ℕ :=
  (if t.1 = 1 then 1 else 0) + (if t.2.1 = 1 then 1 else 0) +
    (if t.2.2 = 1 then 1 else 0)

/-- C10: any selector string whose lowercase form is not `x`, `y` or `z`
(including `dim_all` and arbitrary unrecognized strings) dims all three
axes, and as long as the dim opacity is not itself 1, no selector string
makes more than one axis fully opaque. -/
theorem C10_unrecognized_selector (s : String) (d : ℚ) :
    (strLower s ≠ "x" → strLower s ≠ "y" → strLower s ≠ "z" →
      axisAlphas (some s) d = (d, d, d)) ∧
    (d ≠ 1 → fullCount (axisAlphas (some s) d) ≤ 1) := by
  constructor
  · intro hx hy hz
    simp only [axisAlphas]
    split_ifs <;> simp_all
  · intro hd
    simp only [axisAlphas, fullCount]
    split_ifs <;> simp_all

/-- C10 witness: the undocumented selector `dim_all` (with dim opacity 0)
dims all three axes and leaves no axis fully opaque. -/
theorem C10_witness :
    axisAlphas (some "dim_all") 0 = (0, 0, 0) ∧
    fullCount (axisAlphas (some "dim_all") 0) ≤ 1 :=
  ⟨(C10_unrecognized_selector "dim_all" 0).1 (by decide) (by decide) (by decide),
   (C10_unrecognized_selector "dim_all" 0).2 (by decide)⟩

/-- The tuple unpacking `gx, gy, gz = guide_to`: succeeds exactly when the
value has three components, raising otherwise. -/
def unpack3 (l : List ℚ) : Except String (ℚ × ℚ × ℚ) :=
  match l with
  | [a, b, c] => Except.ok (a, b, c)
  | _ => Except.error "unpack"

/-- The `try/except` around the unpacking: a failed unpack is caught and
the target silently replaced by `(0.0, 0.0, 0.0)`. -/
def guideTargetOf (guide_to : List ℚ) : ℚ × ℚ × ℚ :=
  match unpack3 guide_to with
  | Except.ok t => t
  | Except.error _ => (0, 0, 0)

/-- One plotted guide line (`ax.plot` with a color, alpha, width, style). -/
structure GuideLine where
  src : Vec3
  dst : Vec3
  color : String
  alpha : ℚ
  lw : ℚ
  style : String

/-- The parallelogram keyword dictionary, with the defaults filled in by
the `.get` calls. -/
structure ParallelogramSpec where
  v1 : Vec3
  v2 : Vec3
  fill_color : String
  fill_alpha : ℚ
  edge_color : String
  edge_style : String
  edge_lw : ℚ
  edge_alpha : ℚ
  skip_axis_edges : Bool

/-- The drawing keyword arguments of `create_3d_axis_icon` (the output
path and format are passed separately, as in the source). -/
structure DrawParams where
  size : ℕ × ℕ
  dpi : ℕ
  normal_axis : Option String
  dim_alpha : ℚ
  guide_to : Option (List ℚ)
  guide_color : String
  guide_lw_main : ℚ
  guide_lw_aux : ℚ
  guide_style_main : String
  guide_style_aux : String
  guide_alpha_main : ℚ
  guide_alpha_aux : ℚ
  parallelogram : Option ParallelogramSpec
  extra_guides : List (Vec3 × Vec3)

/-- The defaults of `create_3d_axis_icon`'s drawing keyword arguments. -/
def defaultParams : DrawParams :=
  { size := (400, 400)
    dpi := 150
    normal_axis := none
    dim_alpha := 35/100
    guide_to := none
    guide_color := "#222222"
    guide_lw_main := 3
    guide_lw_aux := 22/10
    guide_style_main := "-"
    guide_style_aux := "--"
    guide_alpha_main := 1
    guide_alpha_aux := 6/10
    parallelogram := none
    extra_guides := [] }

/-- All guide lines the script plots: nothing when `guide_to is None`;
otherwise the solid main line from the origin to the (possibly defaulted)
target, then the auto-derived dashed auxiliary segments, then the
caller-supplied extra segments in the auxiliary style (the extras are only
drawn inside the `guide_to` branch). -/
def guideLines (p : DrawParams) : List GuideLine :=
  match p.guide_to with
  | none => []
  | some g =>
    let t := guideTargetOf g
    ⟨(0, 0, 0), t, p.guide_color, p.guide_alpha_main, p.guide_lw_main, p.guide_style_main⟩ ::
      ((autoAuxSegments t).map (fun s =>
        ⟨s.1, s.2, p.guide_color, p.guide_alpha_aux, p.guide_lw_aux, p.guide_style_aux⟩) ++
       p.extra_guides.map (fun s =>
        ⟨s.1, s.2, p.guide_color, p.guide_alpha_aux, p.guide_lw_aux, p.guide_style_aux⟩))

/-- The geometric content of one icon: everything `create_3d_axis_icon`
draws, independent of the output format. -/
structure Scene where
  sceneArrows : List Arrow
  sceneLabels : List Label
  originMarker : Vec3
  guides : List GuideLine
  face : Option (List Vec3 × String × ℚ)
  faceEdges : List (Vec3 × Vec3)

/-- The scene drawn for a given set of drawing parameters. -/
def scene (p : DrawParams) : Scene :=
  { sceneArrows := arrows p.normal_axis p.dim_alpha
    sceneLabels := labels p.normal_axis p.dim_alpha
    originMarker := (0, 0, 0)
    guides := guideLines p
    face := p.parallelogram.map (fun pg =>
      (parallelogramVerts pg.v1 pg.v2, pg.fill_color, pg.fill_alpha))
    faceEdges := match p.parallelogram with
      | none => []
      | some pg => strokedEdges pg.v1 pg.v2 pg.skip_axis_edges }

/-- Python's `path.replace('.png', '.svg')`: every non-overlapping
occurrence of `.png` is replaced left to right. -/
def replacePngSvg : List Char → List Char
  | '.' :: 'p' :: 'n' :: 'g' :: rest => '.' :: 's' :: 'v' :: 'g' :: replacePngSvg rest
  | c :: rest => c :: replacePngSvg rest
  | [] => []

/-- The file the save step actually writes: for the `svg` format the path
has `.png` replaced by `.svg` first; any other format saves as PNG at the
given path. -/
def savedPath (output_path fmt : String) : String :=
  if strLower fmt = "svg" then ⟨replacePngSvg output_path.toList⟩ else output_path

/-- The observable result of one `create_3d_axis_icon` call, with the
filesystem made explicit: the save step is the only unguarded fallible
step, so a write failure propagates, while everything before it (in
particular the guide-target unpacking) cannot abort the call. -/
def create_3d_axis_icon (p : DrawParams) (output_path fmt : String)
    (writeFails : Bool) : Except String (String × Scene) :=
  if writeFails then Except.error "savefig" else
    Except.ok (savedPath output_path fmt, scene p)

/-- C5 counterexample: a malformed guide target (here a 1-tuple) does not
terminate the run: the unpack failure is caught, the target is replaced by
the origin, and the call completes successfully. -/
theorem C5_counterexample :
    (unpack3 [1]).isOk = false ∧
    guideTargetOf [1] = (0, 0, 0) ∧
    (create_3d_axis_icon { defaultParams with guide_to := some [1] }
        "3d_axis_icon.png" "png" false).isOk = true :=
  ⟨rfl, rfl, rfl⟩

/-- C5 (amended): the renderer catches exactly one geometry-input failure,
the guide-target unpacking — any target that is not a 3-tuple genuinely
fails to unpack, is silently replaced by `(0,0,0)`, and the call still
succeeds — while a filesystem write failure is unhandled and aborts the
call. -/
theorem C5_error_propagation (g : List ℚ) (h : g.length ≠ 3) :
    (unpack3 g).isOk = false ∧
    guideTargetOf g = (0, 0, 0) ∧
    (∀ path fmt, (create_3d_axis_icon { defaultParams with guide_to := some g }
        path fmt false).isOk = true) ∧
    (∀ path fmt, (create_3d_axis_icon { defaultParams with guide_to := some g }
        path fmt true).isOk = false) := by
  have h1 : unpack3 g = Except.error "unpack" := by
    rcases g with _ | ⟨a, _ | ⟨b, _ | ⟨c, _ | ⟨d, t⟩⟩⟩⟩
    · rfl
    · rfl
    · rfl
    · exact absurd rfl h
    · rfl
  refine ⟨by rw [h1]; rfl, by rw [guideTargetOf, h1], fun _ _ => rfl, fun _ _ => rfl⟩

/-- C5 witness: the 1-tuple `(1,)` is rejected by the raw unpacking yet
mapped to the origin by the guarded unpacking. -/
theorem C5_witness :
    (unpack3 [1]).isOk = false ∧ guideTargetOf [1] = (0, 0, 0) ∧
    (create_3d_axis_icon { defaultParams with guide_to := some [1] }
        "axis_standard.png" "png" true).isOk = false :=
  ⟨(C5_error_propagation [1] (by decide)).1,
   (C5_error_propagation [1] (by decide)).2.1,
   (C5_error_propagation [1] (by decide)).2.2.2 "axis_standard.png" "png"⟩

/-- One invocation of the icon renderer, as issued by the batch helper:
the output path, the format, and the shared drawing parameters. -/
structure RenderCall where
  output_path : String
  fmt : String
  params : DrawParams

/-- `_save_both(base_name, **kwargs)`: one renderer call for
`base_name + '.png'` as PNG and one for `base_name + '.svg'` as SVG, both
with the same drawing parameters. -/
def save_both (base : String) (p : DrawParams) : List RenderCall :=
  [⟨base ++ ".png", "png", p⟩, ⟨base ++ ".svg", "svg", p⟩]

/-- The 13 named variant base names, in generation order. -/
def variantBases : List String :=
  ["axis_focus_x", "axis_focus_y", "axis_focus_z",
   "axis_dim_011", "axis_dim_101", "axis_dim_110",
   "axis_plane_001_010", "axis_plane_010_100", "axis_plane_100_001",
   "axis_plane_011_100", "axis_plane_101_010", "axis_plane_110_001",
   "axis_diag_111"]

/-- Every base name the script ever hands to `_save_both`: the standard
and high-resolution styles plus the 13 named variants. -/
def saveBothBases : List String := "axis_standard" :: "axis_hires" :: variantBases

/-- C8: for every batch-helper invocation on one of the script's base
names, the renderer is called exactly twice — once as PNG, once as SVG —
with identical drawing parameters; the two saved files are
`base + '.png'` and `base + '.svg'`, and both calls draw the identical
scene. -/
theorem C8_save_both_pair (base : String) (p : DrawParams)
    (hb : base ∈ saveBothBases) :
    (save_both base p).length = 2 ∧
    (save_both base p).map RenderCall.fmt = ["png", "svg"] ∧
    (save_both base p).map RenderCall.params = [p, p] ∧
    (save_both base p).map (fun c => savedPath c.output_path c.fmt) =
      [base ++ ".png", base ++ ".svg"] ∧
    (save_both base p).map (fun c => scene c.params) = [scene p, scene p] := by
  refine ⟨rfl, rfl, rfl, ?_, rfl⟩
  fin_cases hb <;> rfl

/-- C8 witness: for the standard style the two saved files are the PNG and
the SVG sharing the base name. -/
theorem C8_witness :
    (save_both "axis_standard" defaultParams).map
        (fun c => savedPath c.output_path c.fmt) =
      ["axis_standard" ++ ".png", "axis_standard" ++ ".svg"] :=
  (C8_save_both_pair "axis_standard" defaultParams (by decide)).2.2.2.1

/-- The two files one `_save_both` call writes. -/
def saveBothFiles (base : String) : List String :=
  [savedPath (base ++ ".png") "png", savedPath (base ++ ".svg") "svg"]

/-- Every file written by the `__main__` sequence, in order: the bare
default call (`3d_axis_icon.png` only), `create_multiple_styles`,
`create_focus_variants`, `create_all_dim_with_guides`,
`create_parallelogram_variants`, `create_parallelogram_variants_composite`,
`create_space_diagonal_variant`, then the two reference-grid files. -/
def mainOutputs : List String :=
  [savedPath "3d_axis_icon.png" "png"] ++
  (saveBothFiles "axis_standard" ++ saveBothFiles "axis_hires") ++
  (saveBothFiles "axis_focus_x" ++ saveBothFiles "axis_focus_y" ++
    saveBothFiles "axis_focus_z") ++
  (saveBothFiles "axis_dim_011" ++ saveBothFiles "axis_dim_101" ++
    saveBothFiles "axis_dim_110") ++
  (saveBothFiles "axis_plane_001_010" ++ saveBothFiles "axis_plane_010_100" ++
    saveBothFiles "axis_plane_100_001") ++
  (saveBothFiles "axis_plane_011_100" ++ saveBothFiles "axis_plane_101_010" ++
    saveBothFiles "axis_plane_110_001") ++
  saveBothFiles "axis_diag_111" ++
  ["axis_reference_grid.png", "axis_reference_grid.svg"]

/-- The base names that do come in raster+vector pairs in the output. -/
def pairBases : List String :=
  "axis_standard" :: "axis_hires" :: variantBases ++ ["axis_reference_grid"]

/-- C4 counterexample: the full sequence also writes `3d_axis_icon.png`
(the bare default call), a raster with no vector twin, so the output is
not exactly a collection of raster+vector pairs. -/
theorem C4_counterexample :
    "3d_axis_icon.png" ∈ mainOutputs ∧ "3d_axis_icon.svg" ∉ mainOutputs := by
  decide

/-- C4 (amended): the full generation sequence writes exactly 13 named
variant pairs plus the default/high-resolution pairs plus the composite
pair — 16 raster+vector pairs sharing base names — plus one extra unpaired
default raster `3d_axis_icon.png`, and no two output files share the same
filename. -/
theorem C4_main_outputs :
    mainOutputs =
      "3d_axis_icon.png" ::
        pairBases.flatMap (fun b => [b ++ ".png", b ++ ".svg"]) ∧
    variantBases.length = 13 ∧
    pairBases.length = 16 ∧
    mainOutputs.length = 33 ∧
    mainOutputs.Nodup := by
  refine ⟨?_, rfl, rfl, rfl, ?_⟩ <;> decide

/-- The fixed ordered list of 13 base names the reference grid tiles
(`names` in `create_reference_grid`), in its own order. -/
def gridNames : List String :=
  ["axis_focus_x", "axis_focus_y", "axis_focus_z", "axis_diag_111",
   "axis_dim_011", "axis_dim_101", "axis_dim_110",
   "axis_plane_001_010", "axis_plane_010_100", "axis_plane_100_001",
   "axis_plane_011_100", "axis_plane_101_010", "axis_plane_110_001"]

/-- The grid's light-gray background color `bg = '#eeeeee'`. -/
def gridBg : String := "#eeeeee"

/-- One cell of the 4x4 grid: its background color and the image shown in
it, if any. -/
structure GridCell (α : Type) where
  facecolor : String
  image : Option α

/-- The composed reference figure: the figure background, the 16 cells in
row-major (`ravel`) order, and the files written. -/
structure GridResult (α : Type) where
  figureFacecolor : String
  cells : List (GridCell α)
  outputs : List String

/-- `create_reference_grid`, with the image loader abstracted: `imread`
returns `none` when loading the file raises (e.g. the file is missing),
which the script's `try/except` turns into an empty slot; every cell gets
the gray background and the composite is saved as PNG and SVG
unconditionally. -/
def create_reference_grid (α : Type) (imread : String → Option α) : GridResult α :=
  { figureFacecolor := gridBg
    cells := (List.range 16).map (fun i =>
      { facecolor := gridBg
        image := if i < gridNames.length then imread (gridNames.getD i "" ++ ".png")
                 else none })
    outputs := ["axis_reference_grid.png", "axis_reference_grid.svg"] }

/-- C9: the grid composer tiles the 13 base names in list order into the
16 row-major cells, leaves cells 14-16 blank, paints every cell and the
figure with the uniform light-gray background, and writes one raster and
one vector composite file. -/
theorem C9_reference_grid (α : Type) (imread : String → Option α) :
    gridNames.length = 13 ∧
    (create_reference_grid α imread).figureFacecolor = "#eeeeee" ∧
    (create_reference_grid α imread).cells.length = 16 ∧
    (∀ i : ℕ, i < 16 →
      (create_reference_grid α imread).cells[i]? =
        some { facecolor := "#eeeeee"
               image := if i < 13 then imread (gridNames.getD i "" ++ ".png")
                        else none }) ∧
    (create_reference_grid α imread).outputs =
      ["axis_reference_grid.png", "axis_reference_grid.svg"] := by
  refine ⟨rfl, rfl, by simp [create_reference_grid], ?_, rfl⟩
  intro i hi
  have h13 : gridNames.length = 13 := rfl
  simp [create_reference_grid, List.getElem?_range, hi, h13, gridBg]

/-- C9 witness: with a loader that always succeeds, the last grid cell is
still background-colored and blank. -/
theorem C9_witness :
    (create_reference_grid Unit (fun _ => some ())).cells[15]? =
      some { facecolor := "#eeeeee", image := none } :=
  (C9_reference_grid Unit (fun _ => some ())).2.2.2.1 15 (by decide)

/-- C6: whichever subset of the 13 source rasters fails to load, the grid
composer still completes — it writes both composite files — and each
missing file's slot is simply blank. -/
theorem C6_missing_files_blank (α : Type) (imread : String → Option α) :
    ((create_reference_grid α imread).cells.length = 16 ∧
     (create_reference_grid α imread).outputs =
       ["axis_reference_grid.png", "axis_reference_grid.svg"]) ∧
    (∀ i : ℕ, i < 13 → imread (gridNames.getD i "" ++ ".png") = none →
      (create_reference_grid α imread).cells[i]? =
        some { facecolor := "#eeeeee", image := none }) := by
  refine ⟨⟨by simp [create_reference_grid], rfl⟩, ?_⟩
  intro i hi hmiss
  have h16 : i < 16 := by omega
  have h13 : gridNames.length = 13 := rfl
  simp [create_reference_grid, List.getElem?_range, h16, h13, hi, gridBg] at hmiss ⊢
  exact hmiss

/-- C6 witness: with every source raster missing, the composer still
produces both composite files and leaves slot 0 blank. -/
theorem C6_witness :
    ((create_reference_grid Unit (fun _ => none)).outputs =
      ["axis_reference_grid.png", "axis_reference_grid.svg"]) ∧
    (create_reference_grid Unit (fun _ => none)).cells[0]? =
      some { facecolor := "#eeeeee", image := none } :=
  ⟨(C6_missing_files_blank Unit (fun _ => none)).1.2,
   (C6_missing_files_blank Unit (fun _ => none)).2 0 (by decide) rfl⟩

end AxesIcon
